import Mathlib

/-! A Pulumi program: an API Gateway REST API in front of a Lambda function.

Shallow embedding of `main.go`.  The program is one closure handed to
`pulumi.Run`; it makes ten resource-creation calls into the AWS SDK, each one
followed by `if err != nil { return err }`, then exports one stack output.

The SDK is external to the repository.  It is modelled by
* an oracle `SDK` telling, for each creation call (numbered from 0 in the order
  the calls are made), whether the call returns an error;
* a `Context` recording what the calls registered and what was exported;
* symbolic output properties (`api.ID()`, `lambdaRole.Arn`, ...) that a `Stack`
  resolves to the strings the cloud provider assigns.
-/

namespace PulumiApigatewayLambda

/-! ## Data model -/

/-- Go `error` values returned by an SDK call. -/
abbrev Error := String

/-- The ten resource constructors of the AWS SDK used by `main.go`. -/
inductive Kind where
  | iamRole
  | iamRolePolicyAttachment
  | lambdaFunction
  | apigatewayRestApi
  | lambdaPermission
  | apigatewayResource
  | apigatewayMethod
  | apigatewayIntegration
  | apigatewayDeployment
  | apigatewayStage
  deriving DecidableEq, Repr

/-- The handle a successful creation call returns (`lambdaRole`, `api`, ...):
the constructor that made it and its logical name. -/
structure Resource where
  kind : Kind
  name : String
  deriving DecidableEq, Repr

/-- Values given to argument fields: `pulumi.String(s)`,
`pulumi.NewFileArchive(path)`, or an output property of a created resource. -/
inductive Input where
  | string (s : String)
  | fileArchive (path : String)
  | output (res : Resource) (prop : String)
  deriving DecidableEq, Repr

/-- The value of `pulumi.Sprintf(format, args...)`: a string output computed
from the format once the arguments are resolved. -/
structure StringOutput where
  format : String
  args : List Input
  deriving DecidableEq, Repr

/-- One registered resource: constructor, logical name, the argument struct as the
list of its set fields in source order, and the resources of its `DependsOn` option. -/
structure Registration where
  kind : Kind
  name : String
  args : List (String × Input)
  dependsOn : List Resource
  deriving DecidableEq, Repr

/-- The state behind `*pulumi.Context`: how many creation calls were made, the
resources registered so far (oldest first) and the exported stack outputs. -/
structure Context where
  calls : Nat
  resources : List Registration
  exports : List (String × StringOutput)
  deriving DecidableEq, Repr

/-- The context `pulumi.Run` hands to the closure. -/
def Context.empty : Context := ⟨0, [], []⟩

/-- Behaviour of the SDK: `sdk i` is the error returned by creation call number `i`
(counting from 0), or `none` when that call succeeds. -/
abbrev SDK := Nat → Option Error

/-! ## SDK operations -/

/-- The handle of a registration. -/
def Registration.handle (r : Registration) : Resource := ⟨r.kind, r.name⟩

/-- Models `api.ID()`. -/
def Resource.ID (r : Resource) : Input := .output r "id"

/-- Models `lambdaRole.Name`, `lambdaFunc.Name`. -/
def Resource.Name (r : Resource) : Input := .output r "name"

/-- Models `lambdaRole.Arn`. -/
def Resource.Arn (r : Resource) : Input := .output r "arn"

/-- Models `lambdaFunc.InvokeArn`. -/
def Resource.InvokeArn (r : Resource) : Input := .output r "invokeArn"

/-- Models `api.RootResourceId`. -/
def Resource.RootResourceId (r : Resource) : Input := .output r "rootResourceId"

/-- Models `pulumi.NewFileArchive`. -/
def pulumi.NewFileArchive (path : String) : Input := .fileArchive path

/-- Models `pulumi.Sprintf`. -/
def pulumi.Sprintf (format : String) (args : List Input) : StringOutput := ⟨format, args⟩

/-- Models `pulumi.DependsOn`. -/
def pulumi.DependsOn (rs : List Resource) : List Resource := rs

/-- Models `pulumi.String`. -/
def pulumi.String (s : String) : Input := .string s

/-- One creation call.  The call is counted; when the SDK reports an error nothing is
registered and the error is returned, otherwise the resource is appended to the
registered ones and its handle is returned. -/
def registerResource (sdk : SDK) (ctx : Context) (kind : Kind) (name : String)
    (args : List (String × Input)) (opts : List Resource) : Except Error Resource × Context :=
  match sdk ctx.calls with
  | some err => (.error err, { ctx with calls := ctx.calls + 1 })
  | none =>
    (.ok ⟨kind, name⟩,
      { ctx with calls := ctx.calls + 1, resources := ctx.resources ++ [⟨kind, name, args, opts⟩] })

/-- Models `iam.NewRole`. -/
def iam.NewRole (sdk : SDK) (ctx : Context) (name : String) (args : List (String × Input)) :
    Except Error Resource × Context :=
  registerResource sdk ctx .iamRole name args []

/-- Models `iam.NewRolePolicyAttachment`. -/
def iam.NewRolePolicyAttachment (sdk : SDK) (ctx : Context) (name : String)
    (args : List (String × Input)) : Except Error Resource × Context :=
  registerResource sdk ctx .iamRolePolicyAttachment name args []

/-- Models `lambda.NewFunction`. -/
def lambda.NewFunction (sdk : SDK) (ctx : Context) (name : String)
    (args : List (String × Input)) : Except Error Resource × Context :=
  registerResource sdk ctx .lambdaFunction name args []

/-- Models `lambda.NewPermission`. -/
def lambda.NewPermission (sdk : SDK) (ctx : Context) (name : String)
    (args : List (String × Input)) : Except Error Resource × Context :=
  registerResource sdk ctx .lambdaPermission name args []

/-- Models `apigateway.NewRestApi`. -/
def apigateway.NewRestApi (sdk : SDK) (ctx : Context) (name : String)
    (args : List (String × Input)) : Except Error Resource × Context :=
  registerResource sdk ctx .apigatewayRestApi name args []

/-- Models `apigateway.NewResource`. -/
def apigateway.NewResource (sdk : SDK) (ctx : Context) (name : String)
    (args : List (String × Input)) : Except Error Resource × Context :=
  registerResource sdk ctx .apigatewayResource name args []

/-- Models `apigateway.NewMethod`. -/
def apigateway.NewMethod (sdk : SDK) (ctx : Context) (name : String)
    (args : List (String × Input)) : Except Error Resource × Context :=
  registerResource sdk ctx .apigatewayMethod name args []

/-- Models `apigateway.NewIntegration`. -/
def apigateway.NewIntegration (sdk : SDK) (ctx : Context) (name : String)
    (args : List (String × Input)) : Except Error Resource × Context :=
  registerResource sdk ctx .apigatewayIntegration name args []

/-- Models `apigateway.NewDeployment`; the only constructor called with an option. -/
def apigateway.NewDeployment (sdk : SDK) (ctx : Context) (name : String)
    (args : List (String × Input)) (opts : List Resource) : Except Error Resource × Context :=
  registerResource sdk ctx .apigatewayDeployment name args opts

/-- Models `apigateway.NewStage`. -/
def apigateway.NewStage (sdk : SDK) (ctx : Context) (name : String)
    (args : List (String × Input)) : Except Error Resource × Context :=
  registerResource sdk ctx .apigatewayStage name args []

/-- Models `ctx.Export`. -/
def Context.Export (ctx : Context) (name : String) (value : StringOutput) : Context :=
  { ctx with exports := ctx.exports ++ [(name, value)] }

/-! ## The program -/

/-- The raw string literal given as `AssumeRolePolicy` (lines 15-24 of `main.go`). -/
def assumeRolePolicy : String :=
  "\x7b\n\t\t\t\t\"Version\": \"2012-10-17\",\n\t\t\t\t\"Statement\": [\x7b\n\t\t\t\t\t\"Action\": \"sts:AssumeRole\",\n\t\t\t\t\t\"Effect\": \"Allow\",\n\t\t\t\t\t\"Principal\": \x7b\n\t\t\t\t\t\t\"Service\": \"lambda.amazonaws.com\"\n\t\t\t\t\t\x7d\n\t\t\t\t\x7d]\n\t\t\t\x7d"

/-- The closure passed to `pulumi.Run` in `main`.  The result is the returned Go error
(`none` for `nil`) and the context as the closure leaves it. -/
def run (sdk : SDK) (ctx : Context) : Option Error × Context :=
  match iam.NewRole sdk ctx "lambdaRole"
      [("AssumeRolePolicy", pulumi.String assumeRolePolicy)] with
  | (.error err, ctx) => (some err, ctx)
  | (.ok lambdaRole, ctx) =>
  match iam.NewRolePolicyAttachment sdk ctx "lambdaPolicyAttachment"
      [("Role", lambdaRole.Name),
       ("PolicyArn", pulumi.String "arn:aws:iam::aws:policy/service-role/AWSLambdaBasicExecutionRole")] with
  | (.error err, ctx) => (some err, ctx)
  | (.ok _, ctx) =>
  match lambda.NewFunction sdk ctx "helloLambda"
      [("Code", pulumi.NewFileArchive "function.zip"),
       ("Role", lambdaRole.Arn),
       ("Handler", pulumi.String "bootstrap"),
       ("Runtime", pulumi.String "provided.al2")] with
  | (.error err, ctx) => (some err, ctx)
  | (.ok lambdaFunc, ctx) =>
  match apigateway.NewRestApi sdk ctx "api"
      [("Description", pulumi.String "Example API")] with
  | (.error err, ctx) => (some err, ctx)
  | (.ok api, ctx) =>
  match lambda.NewPermission sdk ctx "apiGatewayInvoke"
      [("Action", pulumi.String "lambda:InvokeFunction"),
       ("Function", lambdaFunc.Name),
       ("Principal", pulumi.String "apigateway.amazonaws.com")] with
  | (.error err, ctx) => (some err, ctx)
  | (.ok _, ctx) =>
  match apigateway.NewResource sdk ctx "resource"
      [("RestApi", api.ID),
       ("ParentId", api.RootResourceId),
       ("PathPart", pulumi.String "hello")] with
  | (.error err, ctx) => (some err, ctx)
  | (.ok resource, ctx) =>
  match apigateway.NewMethod sdk ctx "getMethod"
      [("RestApi", api.ID),
       ("ResourceId", resource.ID),
       ("HttpMethod", pulumi.String "GET"),
       ("Authorization", pulumi.String "NONE")] with
  | (.error err, ctx) => (some err, ctx)
  | (.ok _, ctx) =>
  match apigateway.NewIntegration sdk ctx "getIntegration"
      [("RestApi", api.ID),
       ("ResourceId", resource.ID),
       ("HttpMethod", pulumi.String "GET"),
       ("IntegrationHttpMethod", pulumi.String "POST"),
       ("Type", pulumi.String "AWS_PROXY"),
       ("Uri", lambdaFunc.InvokeArn)] with
  | (.error err, ctx) => (some err, ctx)
  | (.ok integration, ctx) =>
  match apigateway.NewDeployment sdk ctx "deployment"
      [("RestApi", api.ID)]
      (pulumi.DependsOn [integration]) with
  | (.error err, ctx) => (some err, ctx)
  | (.ok deployment, ctx) =>
  match apigateway.NewStage sdk ctx "stage"
      [("Deployment", deployment.ID),
       ("RestApi", api.ID),
       ("StageName", pulumi.String "prod")] with
  | (.error err, ctx) => (some err, ctx)
  | (.ok _, ctx) =>
    (none,
      ctx.Export "invokeUrl"
        (pulumi.Sprintf "https://%s.execute-api.%s.amazonaws.com/prod/hello"
          [api.ID, pulumi.String "ap-northeast-1"]))

/-! ## Resolving outputs -/

/-- The deployed stack as the cloud provider sees it: the AWS region the provider is
configured for, and the string each output property of each resource resolves to. -/
structure Stack where
  region : String
  outputs : Resource → String → String

/-- The string an input resolves to in a deployed stack. -/
def Input.resolve (st : Stack) : Input → String
  | .string s => s
  | .fileArchive path => path
  | .output res prop => st.outputs res prop

/-- Go's `fmt.Sprintf` on the characters of the format, for the fragment the program
uses: the verb `%s` with string operands and the escape `%%`.  The result is `none`
outside that fragment (another verb, a trailing `%`, too few or too many operands). -/
def fmt.sprintfChars : List Char → List String → Option (List Char)
  | [], [] => some []
  | [], _ :: _ => none
  | [c], operands =>
    if c = '%' then none else
      match operands with
      | [] => some [c]
      | _ :: _ => none
  | c :: d :: rest, operands =>
    if c = '%' then
      if d = 's' then
        match operands with
        | [] => none
        | a :: more => (sprintfChars rest more).map (fun out => a.data ++ out)
      else if d = '%' then
        (sprintfChars rest operands).map (fun out => '%' :: out)
      else none
    else
      (sprintfChars (d :: rest) operands).map (fun out => c :: out)

/-- Go's `fmt.Sprintf`, see `fmt.sprintfChars`. -/
def fmt.Sprintf (format : String) (operands : List String) : Option String :=
  (fmt.sprintfChars format.data operands).map String.mk

/-- The string a `pulumi.Sprintf` output resolves to: the format applied to the
resolved arguments. -/
def StringOutput.resolve (st : Stack) (o : StringOutput) : Option String :=
  fmt.Sprintf o.format (o.args.map (Input.resolve st))

/-! ## Reading the final context -/

/-- The registered resource with the given logical name. -/
def Context.find (ctx : Context) (name : String) : Option Registration :=
  ctx.resources.find? (fun r => r.name = name)

/-- The value given to an argument field of a registered resource. -/
def Registration.arg (r : Registration) (field : String) : Option Input :=
  (r.args.find? (fun a => a.1 = field)).map Prod.snd

/-- The value given to field `field` of the resource named `name`. -/
def Context.arg (ctx : Context) (name field : String) : Option Input :=
  (ctx.find name).bind (fun r => r.arg field)

/-- The stack output exported under `name`. -/
def Context.exported (ctx : Context) (name : String) : Option StringOutput :=
  (ctx.exports.find? (fun e => e.1 = name)).map Prod.snd

/-- The resolved value of the stack output `name`. -/
def Context.exportedValue (ctx : Context) (st : Stack) (name : String) : Option String :=
  (ctx.exported name).bind (StringOutput.resolve st)

/-! ## Dependency graph -/

/-- The resource an input refers to, if it is an output property. -/
def Input.refs : Input → List Resource
  | .output res _ => [res]
  | _ => []

/-- The resources a registration depends on: those whose outputs feed its arguments,
then those of its `DependsOn` option. -/
def Registration.deps (r : Registration) : List Resource :=
  (r.args.map (fun a => a.2.refs)).flatten ++ r.dependsOn

/-- An edge of the dependency graph of a context: the registered resource `a` depends
on `b`. -/
def Context.dependsOn (ctx : Context) (a b : Resource) : Prop :=
  ∃ r ∈ ctx.resources, r.handle = a ∧ b ∈ r.deps

/-- Transitive dependency. -/
def Context.dependsOnTrans (ctx : Context) : Resource → Resource → Prop :=
  Relation.TransGen ctx.dependsOn

/-- The SDK behaviour in which every creation call succeeds. -/
def SDK.allSucceed : SDK := fun _ => none

/-- The kinds and logical names of the ten resources, in the order of their creation
calls in `main.go`. -/
def sequence : List (Kind × String) :=
  [(.iamRole, "lambdaRole"),
   (.iamRolePolicyAttachment, "lambdaPolicyAttachment"),
   (.lambdaFunction, "helloLambda"),
   (.apigatewayRestApi, "api"),
   (.lambdaPermission, "apiGatewayInvoke"),
   (.apigatewayResource, "resource"),
   (.apigatewayMethod, "getMethod"),
   (.apigatewayIntegration, "getIntegration"),
   (.apigatewayDeployment, "deployment"),
   (.apigatewayStage, "stage")]

/-- Kind and logical name of every registered resource, oldest first. -/
def Context.registered (ctx : Context) : List (Kind × String) :=
  ctx.resources.map (fun r => (r.kind, r.name))

/-- An SDK behaviour in which the fourth call (the REST API) fails. -/
def SDK.failFourth : SDK := fun i => if i = 3 then some "boom" else none

/-- The context `run` leaves behind when started from the empty context. -/
def finalContext (sdk : SDK) : Context := (run sdk Context.empty).2

/-- Position of a resource in the creation order of the program. -/
def rank (a : Resource) : Nat :=
  ((finalContext SDK.allSucceed).resources.map Registration.handle).indexOf a

/-- Edges of the dependency graph can be computed. -/
instance Context.decidableDependsOn (ctx : Context) (a b : Resource) :
    Decidable (ctx.dependsOn a b) := by
  unfold Context.dependsOn
  infer_instance

/-- The text of `url` between a leading `pre` and a trailing `suf`. -/
def textBetween (pre suf url : String) : String :=
  (url.drop pre.length).take (url.length - pre.length - suf.length)

/-- The REST API id read back from an exported invocation URL: the text between
`https://` and the fixed remainder of the URL. -/
def apiIdOfUrl (url : String) : String :=
  textBetween "https://" ".execute-api.ap-northeast-1.amazonaws.com/prod/hello" url

/-- A stack deployed to `ap-northeast-1` whose REST API got the id `a1b2c3d4e5`. -/
def Stack.tokyo : Stack := ⟨"ap-northeast-1", fun _ _ => "a1b2c3d4e5"⟩

/-- A stack deployed to `us-east-1` whose REST API got the id `a1b2c3d4e5`. -/
def Stack.usEast : Stack := ⟨"us-east-1", fun _ _ => "a1b2c3d4e5"⟩

/-! ## Evaluating `run` -/

/-- The program with every call succeeding: what `run` leaves when no error occurs. -/
theorem run_eq_of_succeed (sdk : SDK) (h : ∀ i, i < 10 → sdk i = none) :
    run sdk Context.empty = run SDK.allSucceed Context.empty := by
  simp [run, registerResource, iam.NewRole, iam.NewRolePolicyAttachment, lambda.NewFunction,
    lambda.NewPermission, apigateway.NewRestApi, apigateway.NewResource, apigateway.NewMethod,
    apigateway.NewIntegration, apigateway.NewDeployment, apigateway.NewStage, Context.empty,
    SDK.allSucceed, h]

/-- The program when call number `k` is the first to fail. -/
theorem run_eq_of_first_error (sdk : SDK) (k : Nat) (e : Error) (hk : k < 10)
    (hbefore : ∀ i, i < k → sdk i = none) (hfail : sdk k = some e) :
    run sdk Context.empty =
      (some e, ⟨k + 1, (run SDK.allSucceed Context.empty).2.resources.take k, []⟩) := by
  interval_cases k <;>
  simp [run, registerResource, iam.NewRole, iam.NewRolePolicyAttachment, lambda.NewFunction,
    lambda.NewPermission, apigateway.NewRestApi, apigateway.NewResource, apigateway.NewMethod,
    apigateway.NewIntegration, apigateway.NewDeployment, apigateway.NewStage, Context.empty,
    Context.Export, SDK.allSucceed, hbefore, hfail]

/-- Either every call succeeds, or some call is the first to fail. -/
theorem sdk_succeeds_or_first_error (sdk : SDK) :
    (∀ i, i < 10 → sdk i = none) ∨
      ∃ k e, k < 10 ∧ (∀ i, i < k → sdk i = none) ∧ sdk k = some e := by
  by_cases h : ∀ i, i < 10 → sdk i = none
  · exact Or.inl h
  · right
    have hex : ∃ i, i < 10 ∧ sdk i ≠ none := by
      by_contra hno
      apply h
      intro i hi
      by_contra hne
      exact hno ⟨i, hi, hne⟩
    classical
    have hspec := Nat.find_spec hex
    obtain ⟨e, he⟩ := Option.ne_none_iff_exists'.mp hspec.2
    refine ⟨Nat.find hex, e, hspec.1, ?_, he⟩
    intro i hi
    by_contra hne
    exact Nat.find_min hex hi ⟨lt_trans hi hspec.1, hne⟩

/-- The program returns `nil` exactly when the ten calls all succeed. -/
theorem run_nil_iff (sdk : SDK) :
    (run sdk Context.empty).1 = none ↔ ∀ i, i < 10 → sdk i = none := by
  constructor
  · intro hnil
    rcases sdk_succeeds_or_first_error sdk with h | ⟨k, e, hk, hbefore, hfail⟩
    · exact h
    · rw [run_eq_of_first_error sdk k e hk hbefore hfail] at hnil
      simp at hnil
  · intro h
    rw [run_eq_of_succeed sdk h]
    rfl

/-- The final context of a run without errors does not depend on the SDK behaviour. -/
theorem finalContext_eq_of_succeed (sdk : SDK) (h : ∀ i, i < 10 → sdk i = none) :
    finalContext sdk = finalContext SDK.allSucceed := by
  rw [finalContext, run_eq_of_succeed sdk h, finalContext]

/-- What is registered is always an initial part of what a run without errors registers. -/
theorem finalContext_resources_take (sdk : SDK) :
    ∃ n, n ≤ 10 ∧
      (finalContext sdk).resources = (finalContext SDK.allSucceed).resources.take n := by
  rcases sdk_succeeds_or_first_error sdk with h | ⟨k, e, hk, hbefore, hfail⟩
  · exact ⟨10, le_refl _, by rw [finalContext_eq_of_succeed sdk h]; rfl⟩
  · exact ⟨k, le_of_lt hk,
      by rw [finalContext, run_eq_of_first_error sdk k e hk hbefore hfail]; rfl⟩

/-! ## Strings -/

/-- The format of the export applied to an API id and a region. -/
theorem sprintf_invokeUrl (a r : String) :
    fmt.Sprintf "https://%s.execute-api.%s.amazonaws.com/prod/hello" [a, r] =
      some ("https://" ++ a ++ ".execute-api." ++ r ++ ".amazonaws.com/" ++ "prod" ++ "/" ++
        "hello") := by
  have hchars :
      fmt.sprintfChars "https://%s.execute-api.%s.amazonaws.com/prod/hello".data [a, r] =
        some ("https://".data ++ a.data ++ ".execute-api.".data ++ r.data ++
          ".amazonaws.com/prod/hello".data) := by
    simp [fmt.sprintfChars]
  rw [fmt.Sprintf, hchars]
  simp only [Option.map_some']
  congr 1
  apply String.ext
  simp only [String.data_append, List.append_assoc]
  rfl

/-- The exported value of a run without errors, in any stack. -/
theorem exportedValue_invokeUrl (st : Stack) :
    (finalContext SDK.allSucceed).exportedValue st "invokeUrl" =
      some ("https://" ++ st.outputs ⟨.apigatewayRestApi, "api"⟩ "id" ++ ".execute-api." ++
        "ap-northeast-1" ++ ".amazonaws.com/" ++ "prod" ++ "/" ++ "hello") := by
  rw [← sprintf_invokeUrl]
  rfl

/-- The pieces of the URL for `ap-northeast-1` put together. -/
theorem invokeUrl_pieces (a : String) :
    "https://" ++ a ++ ".execute-api." ++ "ap-northeast-1" ++ ".amazonaws.com/" ++ "prod" ++ "/" ++
        "hello" =
      "https://" ++ a ++ ".execute-api.ap-northeast-1.amazonaws.com/prod/hello" := by
  apply String.ext
  simp only [String.data_append, List.append_assoc]
  rfl

/-- The middle of a string with known ends is determined by the string. -/
theorem append_middle_inj (pre suf a b : String) (h : pre ++ a ++ suf = pre ++ b ++ suf) :
    a = b := by
  apply String.ext
  have hdata := String.ext_iff.mp h
  simpa using hdata

/-- Reading back the middle of a string with known ends. -/
theorem textBetween_append (pre suf s : String) :
    textBetween pre suf (pre ++ s ++ suf) = s := by
  obtain ⟨p⟩ := pre
  obtain ⟨q⟩ := suf
  obtain ⟨m⟩ := s
  apply String.ext
  simp only [textBetween, String.data_take, String.data_drop, String.length_append,
    String.length_mk, String.data_append, List.append_assoc, List.drop_left]
  have hlen : p.length + (m.length + q.length) - p.length - q.length = m.length := by omega
  rw [Nat.add_assoc, hlen, List.take_left]

/-! ## Dependency order -/

/-- In a run without errors every dependency of the resource at position `k` is the
handle of a resource at an earlier position. -/
theorem full_deps_earlier :
    ∀ k, k < 10 →
      ∀ d ∈ (((finalContext SDK.allSucceed).resources[k]?).map Registration.deps).getD [],
        ∃ j, j < k ∧
          ((finalContext SDK.allSucceed).resources[j]?).map Registration.handle = some d := by
  decide

/-- In a run without errors every dependency has a smaller rank than its dependent. -/
theorem full_deps_rank :
    ∀ r ∈ (finalContext SDK.allSucceed).resources, ∀ b ∈ r.deps, rank b < rank r.handle := by
  decide

/-- An edge of the dependency graph goes down in rank, whatever the SDK does. -/
theorem dependsOn_rank (sdk : SDK) (a b : Resource) (h : (finalContext sdk).dependsOn a b) :
    rank b < rank a := by
  obtain ⟨n, -, hn⟩ := finalContext_resources_take sdk
  obtain ⟨r, hr, rfl, hb⟩ := h
  rw [hn] at hr
  exact full_deps_rank r (List.mem_of_mem_take hr) b hb

/-- A path of the dependency graph goes down in rank. -/
theorem dependsOnTrans_rank (sdk : SDK) (a b : Resource)
    (h : (finalContext sdk).dependsOnTrans a b) : rank b < rank a := by
  induction h with
  | single h1 => exact dependsOn_rank sdk _ _ h1
  | tail _ h2 ih => exact lt_trans (dependsOn_rank sdk _ _ h2) ih

/-- In a run without errors no registered resource lists the method among its
dependencies. -/
theorem no_dependency_on_method :
    ∀ r ∈ (finalContext SDK.allSucceed).resources,
      (⟨.apigatewayMethod, "getMethod"⟩ : Resource) ∉ r.deps := by
  decide

/-! ## C1: the ten resources and the one export -/

/-- C1: when every creation call succeeds, `run` returns `nil`, has made exactly ten
creation calls registering exactly the ten resources of the sequence (in that order, with
those kinds and logical names), and has exported exactly one stack output, named
`invokeUrl`; the outcome is one fixed context, whatever the SDK behaviour that succeeds. -/
theorem run_registers_sequence (sdk : SDK) (h : ∀ i, i < 10 → sdk i = none) :
    (run sdk Context.empty).1 = none ∧
    (run sdk Context.empty).2.registered =
      [(Kind.iamRole, "lambdaRole"),
       (Kind.iamRolePolicyAttachment, "lambdaPolicyAttachment"),
       (Kind.lambdaFunction, "helloLambda"),
       (Kind.apigatewayRestApi, "api"),
       (Kind.lambdaPermission, "apiGatewayInvoke"),
       (Kind.apigatewayResource, "resource"),
       (Kind.apigatewayMethod, "getMethod"),
       (Kind.apigatewayIntegration, "getIntegration"),
       (Kind.apigatewayDeployment, "deployment"),
       (Kind.apigatewayStage, "stage")] ∧
    (run sdk Context.empty).2.resources.length = 10 ∧
    (run sdk Context.empty).2.calls = 10 ∧
    (run sdk Context.empty).2.exports.map Prod.fst = ["invokeUrl"] ∧
    run sdk Context.empty = run SDK.allSucceed Context.empty := by
  rw [run_eq_of_succeed sdk h]
  exact ⟨rfl, rfl, rfl, rfl, rfl, rfl⟩

/-- Witness for C1: the SDK in which nothing fails. -/
theorem run_registers_sequence_witness :
    (∀ i, i < 10 → SDK.allSucceed i = none) ∧
    (run SDK.allSucceed Context.empty).1 = none ∧
    (run SDK.allSucceed Context.empty).2.registered =
      [(Kind.iamRole, "lambdaRole"),
       (Kind.iamRolePolicyAttachment, "lambdaPolicyAttachment"),
       (Kind.lambdaFunction, "helloLambda"),
       (Kind.apigatewayRestApi, "api"),
       (Kind.lambdaPermission, "apiGatewayInvoke"),
       (Kind.apigatewayResource, "resource"),
       (Kind.apigatewayMethod, "getMethod"),
       (Kind.apigatewayIntegration, "getIntegration"),
       (Kind.apigatewayDeployment, "deployment"),
       (Kind.apigatewayStage, "stage")] ∧
    (run SDK.allSucceed Context.empty).2.resources.length = 10 ∧
    (run SDK.allSucceed Context.empty).2.calls = 10 ∧
    (run SDK.allSucceed Context.empty).2.exports.map Prod.fst = ["invokeUrl"] ∧
    run SDK.allSucceed Context.empty = run SDK.allSucceed Context.empty :=
  ⟨fun _ _ => rfl, run_registers_sequence SDK.allSucceed (fun _ _ => rfl)⟩

/-! ## C2: error propagation -/

/-- C2: for `k` from 1 to 10, if the `k`-th creation call is the first to return an
error `e`, then `run` returns `e`, exactly `k` creation calls were made, the registered
resources are the first `k - 1` of the sequence, and nothing is exported; and `run`
returns `nil` if and only if all ten creation calls succeed. -/
theorem run_first_error (sdk : SDK) :
    (∀ (k : Nat) (e : Error), 1 ≤ k → k ≤ 10 →
      (∀ i, i < k - 1 → sdk i = none) → sdk (k - 1) = some e →
        (run sdk Context.empty).1 = some e ∧
        (run sdk Context.empty).2.calls = k ∧
        (run sdk Context.empty).2.registered = sequence.take (k - 1) ∧
        (run sdk Context.empty).2.exports = []) ∧
    ((run sdk Context.empty).1 = none ↔ ∀ i, i < 10 → sdk i = none) := by
  refine ⟨?_, run_nil_iff sdk⟩
  intro k e hk1 hk10 hbefore hfail
  obtain ⟨j, rfl⟩ : ∃ j, k = j + 1 := ⟨k - 1, by omega⟩
  simp only [Nat.add_sub_cancel] at hbefore hfail ⊢
  rw [run_eq_of_first_error sdk j e (by omega) hbefore hfail]
  refine ⟨rfl, rfl, ?_, rfl⟩
  simp only [Context.registered, List.map_take]
  rfl

/-- Witness for C2: the REST API call fails after three successful calls. -/
theorem run_first_error_witness :
    (1 ≤ 4 ∧ 4 ≤ 10 ∧ (∀ i, i < 4 - 1 → SDK.failFourth i = none) ∧
      SDK.failFourth (4 - 1) = some "boom") ∧
    (run SDK.failFourth Context.empty).1 = some "boom" ∧
    (run SDK.failFourth Context.empty).2.calls = 4 ∧
    (run SDK.failFourth Context.empty).2.registered =
      [(Kind.iamRole, "lambdaRole"),
       (Kind.iamRolePolicyAttachment, "lambdaPolicyAttachment"),
       (Kind.lambdaFunction, "helloLambda")] ∧
    (run SDK.failFourth Context.empty).2.exports = [] :=
  have hbefore : ∀ i, i < 4 - 1 → SDK.failFourth i = none := by
    intro i hi
    have hne : i ≠ 3 := by omega
    simp [SDK.failFourth, hne]
  ⟨⟨by decide, by decide, hbefore, rfl⟩,
    (run_first_error SDK.failFourth).1 4 "boom" (by decide) (by decide) hbefore rfl⟩

/-! ## C3: the exported URL and the region -/

/-- C3: evaluation of the export for a stack deployed to `us-east-1` whose REST API has
the id `a1b2c3d4e5`, in a run without errors.  The stage gets the `StageName` `prod` and
the API Gateway resource the `PathPart` `hello`, but the exported `invokeUrl` names the
`ap-northeast-1` host; it is not `https://` ++ apiId ++ `.execute-api.` ++ region ++
`.amazonaws.com/` ++ StageName ++ `/` ++ PathPart for the region of the stack. -/
theorem invokeUrl_ignores_stack_region :
    (finalContext SDK.allSucceed).arg "stage" "StageName" = some (pulumi.String "prod") ∧
    (finalContext SDK.allSucceed).arg "resource" "PathPart" = some (pulumi.String "hello") ∧
    Stack.usEast.region = "us-east-1" ∧
    Stack.usEast.outputs ⟨.apigatewayRestApi, "api"⟩ "id" = "a1b2c3d4e5" ∧
    (finalContext SDK.allSucceed).exportedValue Stack.usEast "invokeUrl" =
      some "https://a1b2c3d4e5.execute-api.ap-northeast-1.amazonaws.com/prod/hello" ∧
    (finalContext SDK.allSucceed).exportedValue Stack.usEast "invokeUrl" ≠
      some ("https://" ++ Stack.usEast.outputs ⟨.apigatewayRestApi, "api"⟩ "id" ++
        ".execute-api." ++ Stack.usEast.region ++ ".amazonaws.com/" ++ "prod" ++ "/" ++
        "hello") := by
  decide

/-! ## C4: the exported URL as a function of the API id -/

/-- C4: in a run without errors, for every REST API id `s` the exported `invokeUrl` is
`https://` ++ s ++ `.execute-api.ap-northeast-1.amazonaws.com/prod/hello`; stacks with
the same exported URL have the same API id; and the id is read back from the URL as the
text between `https://` and the fixed remainder. -/
theorem invokeUrl_of_api_id (sdk : SDK) (h : ∀ i, i < 10 → sdk i = none) :
    (∀ (s : String) (st : Stack), st.outputs ⟨.apigatewayRestApi, "api"⟩ "id" = s →
      (finalContext sdk).exportedValue st "invokeUrl" =
        some ("https://" ++ s ++ ".execute-api.ap-northeast-1.amazonaws.com/prod/hello")) ∧
    (∀ (st st' : Stack),
      (finalContext sdk).exportedValue st "invokeUrl" =
        (finalContext sdk).exportedValue st' "invokeUrl" →
      st.outputs ⟨.apigatewayRestApi, "api"⟩ "id" =
        st'.outputs ⟨.apigatewayRestApi, "api"⟩ "id") ∧
    (∀ (st : Stack) (url : String),
      (finalContext sdk).exportedValue st "invokeUrl" = some url →
      apiIdOfUrl url = st.outputs ⟨.apigatewayRestApi, "api"⟩ "id") := by
  rw [finalContext_eq_of_succeed sdk h]
  have hval : ∀ st : Stack, (finalContext SDK.allSucceed).exportedValue st "invokeUrl" =
      some ("https://" ++ st.outputs ⟨.apigatewayRestApi, "api"⟩ "id" ++
        ".execute-api.ap-northeast-1.amazonaws.com/prod/hello") := by
    intro st
    rw [exportedValue_invokeUrl st, invokeUrl_pieces]
  refine ⟨?_, ?_, ?_⟩
  · intro s st hs
    rw [hval st, hs]
  · intro st st' heq
    rw [hval st, hval st'] at heq
    exact append_middle_inj _ _ _ _ (Option.some.inj heq)
  · intro st url hurl
    rw [hval st] at hurl
    rw [← Option.some.inj hurl]
    exact textBetween_append _ _ _

/-- Witness for C4: the run in which nothing fails. -/
theorem invokeUrl_of_api_id_witness :
    (∀ i, i < 10 → SDK.allSucceed i = none) ∧
    (finalContext SDK.allSucceed).exportedValue Stack.tokyo "invokeUrl" =
      some ("https://" ++ "a1b2c3d4e5" ++ ".execute-api.ap-northeast-1.amazonaws.com/prod/hello") ∧
    apiIdOfUrl "https://a1b2c3d4e5.execute-api.ap-northeast-1.amazonaws.com/prod/hello" =
      "a1b2c3d4e5" :=
  ⟨fun _ _ => rfl,
    (invokeUrl_of_api_id SDK.allSucceed (fun _ _ => rfl)).1 "a1b2c3d4e5" Stack.tokyo rfl,
    (invokeUrl_of_api_id SDK.allSucceed (fun _ _ => rfl)).2.2 Stack.tokyo _
      ((invokeUrl_of_api_id SDK.allSucceed (fun _ _ => rfl)).1 "a1b2c3d4e5" Stack.tokyo rfl)⟩

/-! ## C5: the integration -/

/-- C5: in a run without errors the integration `getIntegration` has the same `RestApi`,
`ResourceId` and `HttpMethod` as the method `getMethod`, namely the id of the created
REST API `api`, the id of the created resource `resource` and `GET`; its `Uri` is the
`InvokeArn` of the created Lambda function `helloLambda`, its `IntegrationHttpMethod` is
`POST` and its `Type` is `AWS_PROXY`. -/
theorem integration_connects_method_to_lambda (sdk : SDK) (h : ∀ i, i < 10 → sdk i = none) :
    ((finalContext sdk).find "getIntegration").map Registration.kind = some Kind.apigatewayIntegration ∧
    ((finalContext sdk).find "getMethod").map Registration.kind = some Kind.apigatewayMethod ∧
    ((finalContext sdk).find "api").map Registration.handle = some ⟨.apigatewayRestApi, "api"⟩ ∧
    ((finalContext sdk).find "resource").map Registration.handle = some ⟨.apigatewayResource, "resource"⟩ ∧
    ((finalContext sdk).find "helloLambda").map Registration.handle = some ⟨.lambdaFunction, "helloLambda"⟩ ∧
    (finalContext sdk).arg "getIntegration" "RestApi" = (finalContext sdk).arg "getMethod" "RestApi" ∧
    (finalContext sdk).arg "getIntegration" "ResourceId" = (finalContext sdk).arg "getMethod" "ResourceId" ∧
    (finalContext sdk).arg "getIntegration" "HttpMethod" = (finalContext sdk).arg "getMethod" "HttpMethod" ∧
    (finalContext sdk).arg "getMethod" "RestApi" = some (Resource.ID ⟨.apigatewayRestApi, "api"⟩) ∧
    (finalContext sdk).arg "getMethod" "ResourceId" = some (Resource.ID ⟨.apigatewayResource, "resource"⟩) ∧
    (finalContext sdk).arg "getMethod" "HttpMethod" = some (pulumi.String "GET") ∧
    (finalContext sdk).arg "getIntegration" "Uri" =
      some (Resource.InvokeArn ⟨.lambdaFunction, "helloLambda"⟩) ∧
    (finalContext sdk).arg "getIntegration" "IntegrationHttpMethod" = some (pulumi.String "POST") ∧
    (finalContext sdk).arg "getIntegration" "Type" = some (pulumi.String "AWS_PROXY") := by
  rw [finalContext_eq_of_succeed sdk h]
  decide

/-- Witness for C5: the run in which nothing fails. -/
theorem integration_connects_method_to_lambda_witness :
    (∀ i, i < 10 → SDK.allSucceed i = none) ∧
    ((finalContext SDK.allSucceed).find "getIntegration").map Registration.kind = some Kind.apigatewayIntegration ∧
    ((finalContext SDK.allSucceed).find "getMethod").map Registration.kind = some Kind.apigatewayMethod ∧
    ((finalContext SDK.allSucceed).find "api").map Registration.handle = some ⟨.apigatewayRestApi, "api"⟩ ∧
    ((finalContext SDK.allSucceed).find "resource").map Registration.handle = some ⟨.apigatewayResource, "resource"⟩ ∧
    ((finalContext SDK.allSucceed).find "helloLambda").map Registration.handle = some ⟨.lambdaFunction, "helloLambda"⟩ ∧
    (finalContext SDK.allSucceed).arg "getIntegration" "RestApi" = (finalContext SDK.allSucceed).arg "getMethod" "RestApi" ∧
    (finalContext SDK.allSucceed).arg "getIntegration" "ResourceId" = (finalContext SDK.allSucceed).arg "getMethod" "ResourceId" ∧
    (finalContext SDK.allSucceed).arg "getIntegration" "HttpMethod" = (finalContext SDK.allSucceed).arg "getMethod" "HttpMethod" ∧
    (finalContext SDK.allSucceed).arg "getMethod" "RestApi" = some (Resource.ID ⟨.apigatewayRestApi, "api"⟩) ∧
    (finalContext SDK.allSucceed).arg "getMethod" "ResourceId" = some (Resource.ID ⟨.apigatewayResource, "resource"⟩) ∧
    (finalContext SDK.allSucceed).arg "getMethod" "HttpMethod" = some (pulumi.String "GET") ∧
    (finalContext SDK.allSucceed).arg "getIntegration" "Uri" =
      some (Resource.InvokeArn ⟨.lambdaFunction, "helloLambda"⟩) ∧
    (finalContext SDK.allSucceed).arg "getIntegration" "IntegrationHttpMethod" = some (pulumi.String "POST") ∧
    (finalContext SDK.allSucceed).arg "getIntegration" "Type" = some (pulumi.String "AWS_PROXY") :=
  ⟨fun _ _ => rfl, integration_connects_method_to_lambda SDK.allSucceed (fun _ _ => rfl)⟩

/-! ## C6: IAM and Lambda wiring -/

/-- C6: in a run without errors the policy attachment has as `Role` the `Name` output of
the created role `lambdaRole` and as `PolicyArn` the ARN of `AWSLambdaBasicExecutionRole`;
the Lambda function has as `Role` the `Arn` output of that role; the Lambda permission has
as `Function` the `Name` output of the created function `helloLambda`, with `Action`
`lambda:InvokeFunction` and `Principal` `apigateway.amazonaws.com`. -/
theorem iam_lambda_identifiers_connected (sdk : SDK) (h : ∀ i, i < 10 → sdk i = none) :
    ((finalContext sdk).find "lambdaRole").map Registration.handle = some ⟨.iamRole, "lambdaRole"⟩ ∧
    ((finalContext sdk).find "helloLambda").map Registration.handle = some ⟨.lambdaFunction, "helloLambda"⟩ ∧
    ((finalContext sdk).find "lambdaPolicyAttachment").map Registration.kind =
      some Kind.iamRolePolicyAttachment ∧
    ((finalContext sdk).find "apiGatewayInvoke").map Registration.kind = some Kind.lambdaPermission ∧
    (finalContext sdk).arg "lambdaPolicyAttachment" "Role" = some (Resource.Name ⟨.iamRole, "lambdaRole"⟩) ∧
    (finalContext sdk).arg "lambdaPolicyAttachment" "PolicyArn" =
      some (pulumi.String "arn:aws:iam::aws:policy/service-role/AWSLambdaBasicExecutionRole") ∧
    (finalContext sdk).arg "helloLambda" "Role" = some (Resource.Arn ⟨.iamRole, "lambdaRole"⟩) ∧
    (finalContext sdk).arg "apiGatewayInvoke" "Function" =
      some (Resource.Name ⟨.lambdaFunction, "helloLambda"⟩) ∧
    (finalContext sdk).arg "apiGatewayInvoke" "Action" = some (pulumi.String "lambda:InvokeFunction") ∧
    (finalContext sdk).arg "apiGatewayInvoke" "Principal" = some (pulumi.String "apigateway.amazonaws.com") := by
  rw [finalContext_eq_of_succeed sdk h]
  decide

/-- Witness for C6: the run in which nothing fails. -/
theorem iam_lambda_identifiers_connected_witness :
    (∀ i, i < 10 → SDK.allSucceed i = none) ∧
    ((finalContext SDK.allSucceed).find "lambdaRole").map Registration.handle = some ⟨.iamRole, "lambdaRole"⟩ ∧
    ((finalContext SDK.allSucceed).find "helloLambda").map Registration.handle = some ⟨.lambdaFunction, "helloLambda"⟩ ∧
    ((finalContext SDK.allSucceed).find "lambdaPolicyAttachment").map Registration.kind =
      some Kind.iamRolePolicyAttachment ∧
    ((finalContext SDK.allSucceed).find "apiGatewayInvoke").map Registration.kind = some Kind.lambdaPermission ∧
    (finalContext SDK.allSucceed).arg "lambdaPolicyAttachment" "Role" = some (Resource.Name ⟨.iamRole, "lambdaRole"⟩) ∧
    (finalContext SDK.allSucceed).arg "lambdaPolicyAttachment" "PolicyArn" =
      some (pulumi.String "arn:aws:iam::aws:policy/service-role/AWSLambdaBasicExecutionRole") ∧
    (finalContext SDK.allSucceed).arg "helloLambda" "Role" = some (Resource.Arn ⟨.iamRole, "lambdaRole"⟩) ∧
    (finalContext SDK.allSucceed).arg "apiGatewayInvoke" "Function" =
      some (Resource.Name ⟨.lambdaFunction, "helloLambda"⟩) ∧
    (finalContext SDK.allSucceed).arg "apiGatewayInvoke" "Action" = some (pulumi.String "lambda:InvokeFunction") ∧
    (finalContext SDK.allSucceed).arg "apiGatewayInvoke" "Principal" = some (pulumi.String "apigateway.amazonaws.com") :=
  ⟨fun _ _ => rfl, iam_lambda_identifiers_connected SDK.allSucceed (fun _ _ => rfl)⟩

/-! ## C7: one REST API -/

/-- C7: in a run without errors exactly one REST API is created, `api`; every created API
Gateway child (the resource, the method, the integration, the deployment and the stage)
has the id of that API as `RestApi`; the `ParentId` of the resource is the
`RootResourceId` of the API; the `ResourceId` of the method and of the integration is the
id of the resource `resource`; the `Deployment` of the stage is the id of the deployment
`deployment`. -/
theorem children_belong_to_api (sdk : SDK) (h : ∀ i, i < 10 → sdk i = none) :
    ((finalContext sdk).resources.filter (fun r => r.kind = Kind.apigatewayRestApi)).map Registration.handle =
      [⟨.apigatewayRestApi, "api"⟩] ∧
    ((finalContext sdk).resources.filter (fun r => r.kind ∈ [Kind.apigatewayResource, Kind.apigatewayMethod,
        Kind.apigatewayIntegration, Kind.apigatewayDeployment, Kind.apigatewayStage])).map
      Registration.name = ["resource", "getMethod", "getIntegration", "deployment", "stage"] ∧
    (∀ r ∈ (finalContext sdk).resources,
      r.kind ∈ [Kind.apigatewayResource, Kind.apigatewayMethod, Kind.apigatewayIntegration,
        Kind.apigatewayDeployment, Kind.apigatewayStage] →
      r.arg "RestApi" = some (Resource.ID ⟨.apigatewayRestApi, "api"⟩)) ∧
    ((finalContext sdk).find "resource").map Registration.handle = some ⟨.apigatewayResource, "resource"⟩ ∧
    ((finalContext sdk).find "deployment").map Registration.handle =
      some ⟨.apigatewayDeployment, "deployment"⟩ ∧
    (finalContext sdk).arg "resource" "ParentId" =
      some (Resource.RootResourceId ⟨.apigatewayRestApi, "api"⟩) ∧
    (finalContext sdk).arg "getMethod" "ResourceId" = some (Resource.ID ⟨.apigatewayResource, "resource"⟩) ∧
    (finalContext sdk).arg "getIntegration" "ResourceId" =
      some (Resource.ID ⟨.apigatewayResource, "resource"⟩) ∧
    (finalContext sdk).arg "stage" "Deployment" = some (Resource.ID ⟨.apigatewayDeployment, "deployment"⟩) := by
  rw [finalContext_eq_of_succeed sdk h]
  decide

/-- Witness for C7: the run in which nothing fails. -/
theorem children_belong_to_api_witness :
    (∀ i, i < 10 → SDK.allSucceed i = none) ∧
    ((finalContext SDK.allSucceed).resources.filter (fun r => r.kind = Kind.apigatewayRestApi)).map Registration.handle =
      [⟨.apigatewayRestApi, "api"⟩] ∧
    ((finalContext SDK.allSucceed).resources.filter (fun r => r.kind ∈ [Kind.apigatewayResource, Kind.apigatewayMethod,
        Kind.apigatewayIntegration, Kind.apigatewayDeployment, Kind.apigatewayStage])).map
      Registration.name = ["resource", "getMethod", "getIntegration", "deployment", "stage"] ∧
    (∀ r ∈ (finalContext SDK.allSucceed).resources,
      r.kind ∈ [Kind.apigatewayResource, Kind.apigatewayMethod, Kind.apigatewayIntegration,
        Kind.apigatewayDeployment, Kind.apigatewayStage] →
      r.arg "RestApi" = some (Resource.ID ⟨.apigatewayRestApi, "api"⟩)) ∧
    ((finalContext SDK.allSucceed).find "resource").map Registration.handle = some ⟨.apigatewayResource, "resource"⟩ ∧
    ((finalContext SDK.allSucceed).find "deployment").map Registration.handle =
      some ⟨.apigatewayDeployment, "deployment"⟩ ∧
    (finalContext SDK.allSucceed).arg "resource" "ParentId" =
      some (Resource.RootResourceId ⟨.apigatewayRestApi, "api"⟩) ∧
    (finalContext SDK.allSucceed).arg "getMethod" "ResourceId" = some (Resource.ID ⟨.apigatewayResource, "resource"⟩) ∧
    (finalContext SDK.allSucceed).arg "getIntegration" "ResourceId" =
      some (Resource.ID ⟨.apigatewayResource, "resource"⟩) ∧
    (finalContext SDK.allSucceed).arg "stage" "Deployment" = some (Resource.ID ⟨.apigatewayDeployment, "deployment"⟩) :=
  ⟨fun _ _ => rfl, children_belong_to_api SDK.allSucceed (fun _ _ => rfl)⟩

/-! ## C8: the method in the dependency graph -/

/-- C8: evaluation of the dependency graph of the run without errors.  The deployment
depends, directly or transitively, on the REST API, on the integration and on the
resource; but no edge of the graph ends at the method `getMethod`, so neither the
deployment nor the integration depends on it, directly or transitively. -/
theorem method_outside_dependency_graph :
    (finalContext SDK.allSucceed).dependsOnTrans
      ⟨.apigatewayDeployment, "deployment"⟩ ⟨.apigatewayRestApi, "api"⟩ ∧
    (finalContext SDK.allSucceed).dependsOnTrans
      ⟨.apigatewayDeployment, "deployment"⟩ ⟨.apigatewayIntegration, "getIntegration"⟩ ∧
    (finalContext SDK.allSucceed).dependsOnTrans
      ⟨.apigatewayDeployment, "deployment"⟩ ⟨.apigatewayResource, "resource"⟩ ∧
    ((finalContext SDK.allSucceed).find "getMethod").map Registration.handle =
      some ⟨.apigatewayMethod, "getMethod"⟩ ∧
    ¬ (finalContext SDK.allSucceed).dependsOnTrans
      ⟨.apigatewayDeployment, "deployment"⟩ ⟨.apigatewayMethod, "getMethod"⟩ ∧
    ¬ (finalContext SDK.allSucceed).dependsOnTrans
      ⟨.apigatewayIntegration, "getIntegration"⟩ ⟨.apigatewayMethod, "getMethod"⟩ ∧
    (∀ a, ¬ (finalContext SDK.allSucceed).dependsOn a ⟨.apigatewayMethod, "getMethod"⟩) := by
  have hno : ∀ a,
      ¬ (finalContext SDK.allSucceed).dependsOn a ⟨.apigatewayMethod, "getMethod"⟩ := by
    rintro a ⟨r, hr, -, hb⟩
    exact no_dependency_on_method r hr hb
  have hnoT : ∀ a, ¬ (finalContext SDK.allSucceed).dependsOnTrans a
      ⟨.apigatewayMethod, "getMethod"⟩ := by
    intro a hpath
    cases hpath with
    | single h1 => exact hno _ h1
    | tail _ h2 => exact hno _ h2
  refine ⟨?_, ?_, ?_, by decide, hnoT _, hnoT _, hno⟩
  · exact Relation.TransGen.single (by decide)
  · exact Relation.TransGen.single (by decide)
  · exact Relation.TransGen.tail (Relation.TransGen.single
      (show (finalContext SDK.allSucceed).dependsOn ⟨.apigatewayDeployment, "deployment"⟩
        ⟨.apigatewayIntegration, "getIntegration"⟩ by decide)) (by decide)

/-! ## C9: the dependency graph follows the creation order -/

/-- C9: whatever the SDK does, every dependency (output reference or `DependsOn`) of the
resource registered at position `k` is the handle of a resource registered at a position
strictly before `k`; the dependency graph has no cycle; the IAM role and the REST API
have no dependencies; and the first registered resource, if any, is the IAM role. -/
theorem dependencies_precede (sdk : SDK) :
    (∀ (k : Nat) (r : Registration), (finalContext sdk).resources[k]? = some r →
      ∀ d ∈ r.deps, ∃ j, j < k ∧
        ((finalContext sdk).resources[j]?).map Registration.handle = some d) ∧
    (∀ a, ¬ (finalContext sdk).dependsOnTrans a a) ∧
    (∀ r ∈ (finalContext sdk).resources,
      r.handle = ⟨.iamRole, "lambdaRole"⟩ ∨ r.handle = ⟨.apigatewayRestApi, "api"⟩ →
        r.deps = []) ∧
    ((finalContext sdk).resources[0]?.map Registration.handle = some ⟨.iamRole, "lambdaRole"⟩ ∨
      (finalContext sdk).resources = []) := by
  obtain ⟨n, hn10, hn⟩ := finalContext_resources_take sdk
  refine ⟨?_, ?_, ?_, ?_⟩
  · intro k r hk d hd
    rw [hn, List.getElem?_take] at hk
    split at hk
    next hlt =>
      have hk10 : k < 10 := by omega
      obtain ⟨j, hj, hjd⟩ := full_deps_earlier k hk10 d (by rw [hk]; exact hd)
      exact ⟨j, hj, by rw [hn, List.getElem?_take_of_lt (by omega)]; exact hjd⟩
    next => exact absurd hk (by simp)
  · intro a ha
    exact lt_irrefl _ (dependsOnTrans_rank sdk a a ha)
  · intro r hr
    rw [hn] at hr
    have hfull : ∀ r ∈ (finalContext SDK.allSucceed).resources,
        r.handle = ⟨.iamRole, "lambdaRole"⟩ ∨ r.handle = ⟨.apigatewayRestApi, "api"⟩ →
          r.deps = [] := by decide
    exact hfull r (List.mem_of_mem_take hr)
  · rw [hn]
    rcases Nat.eq_zero_or_pos n with h0 | hpos
    · right; rw [h0]; rfl
    · left; rw [List.getElem?_take_of_lt hpos]; rfl

end PulumiApigatewayLambda
